import Mathlib

/-!
Verification development for the tender-insights document ingestion and
classification pipeline.

The Lean definitions below are a shallow embedding of the Python sources
`src/backend/app/services/extractor.py` and
`src/backend/app/services/scraper.py`.  Pure Python routines become Lean
functions; calls into external libraries (pypdf, python-docx, openpyxl,
pandas, paddleocr/fitz, antiword, the DeepSeek chat API, playwright, the
byte-decoding of `bytes.decode`) are modelled as explicit behaviour
parameters: each external call site reads its outcome from a field of a
`FileContent` record or from an oracle argument, so the repository's own
control flow is translated literally while the collaborators stay
universally quantified.

Strings are modelled with Lean `String`; Python `str.lower`, `str.strip`,
`str.split()` are modelled on the ASCII range (all string constants in the
classifier's tables and every concrete input used below are within that
range, so the modelling is exact on everything the theorems touch).
-/

set_option maxRecDepth 8192

namespace TenderSpec

/-! ### Python string primitives (ASCII model) -/

/-- Python whitespace (`str.strip`, `\s`, `str.split()`), ASCII part:
space, tab, newline, carriage return, vertical tab, form feed. -/
def isPySpace (c : Char) : Bool :=
  c = ' ' || c = '\t' || c = '\n' || c = '\r' || c = '\x0b' || c = '\x0c'

/-- A regex word character (`\w` / the implicit sides of `\b`):
letters, digits, underscore (ASCII model). -/
def isWordChar (c : Char) : Bool :=
  c.isAlphanum || c = '_'

/-- Python `str.lower()` (ASCII model: A-Z map to a-z). -/
def pyLower (s : String) : String := String.mk (s.data.map Char.toLower)

/-- Python `str.upper()` (ASCII model). -/
def pyUpper (s : String) : String := String.mk (s.data.map Char.toUpper)

/-- Python `str.strip()`: drop leading and trailing whitespace. -/
def pyStrip (s : String) : String :=
  String.mk (((s.data.dropWhile isPySpace).reverse.dropWhile isPySpace).reverse)

/-- Python `s[:n]` on strings (character count). -/
def pyTake (s : String) (n : Nat) : String := String.mk (s.data.take n)

/-- Python `s.startswith(pre)`. -/
def pyStartsWith (s pre : String) : Bool := pre.data.isPrefixOf s.data

/-- Python `s.endswith(suf)`. -/
def pyEndsWith (s suf : String) : Bool :=
  suf.data.reverse.isPrefixOf s.data.reverse

/-- Splitting on one separator character, accumulator reversed. -/
def splitOnCharAux (sep : Char) (cur : List Char) : List Char → List (List Char)
  | [] => [cur.reverse]
  | c :: cs =>
    if c = sep then cur.reverse :: splitOnCharAux sep [] cs
    else splitOnCharAux sep (c :: cur) cs

/-- Python `s.split(sep)` for a one-character separator (as used by the
source with `'/'`, `'\\'` and `'.'`): empty fields are kept and the empty
string splits to `[""]`. -/
def splitOnChar (sep : Char) (s : String) : List String :=
  (splitOnCharAux sep [] s.data).map String.mk

/-- Whitespace-splitting accumulator for `str.split()`. -/
def pySplitWsAux (cur : List Char) : List Char → List String
  | [] => if cur.isEmpty then [] else [String.mk cur.reverse]
  | c :: cs =>
    if isPySpace c then
      if cur.isEmpty then pySplitWsAux [] cs
      else String.mk cur.reverse :: pySplitWsAux [] cs
    else pySplitWsAux (c :: cur) cs

/-- Python `str.split()` with no argument: split on whitespace runs,
discarding empty fields. -/
def pySplitWs (s : String) : List String := pySplitWsAux [] s.data

/-- Scan: does `needle` occur as a prefix of some suffix of the subject? -/
def containsAux (needle : List Char) : List Char → Bool
  | [] => needle.isPrefixOf []
  | c :: cs => needle.isPrefixOf (c :: cs) || containsAux needle cs

/-- Python `sub in s` for strings (`str.__contains__`). -/
def strContains (hay needle : String) : Bool :=
  containsAux needle.data hay.data

/-- One step of `re.sub(r'\s+', ' ', text)`: the flag records whether the
previous character was part of a whitespace run already replaced. -/
def collapseWsAux : Bool → List Char → List Char
  | _, [] => []
  | prevWs, c :: cs =>
    if isPySpace c then
      if prevWs then collapseWsAux true cs
      else ' ' :: collapseWsAux true cs
    else c :: collapseWsAux false cs

/-- `re.sub(r'\s+', ' ', text)`: collapse every whitespace run to one space. -/
def collapseWs (s : String) : String :=
  String.mk (collapseWsAux false s.data)

/-! ### extractor.py — data model -/

/-- `DocumentType` enumeration (extractor.py lines 25-30). -/
inductive DocumentType where
  | AVIS
  | RC
  | CPS
  | ANNEXE
  | UNKNOWN
deriving DecidableEq, Repr

/-- `ExtractionMethod` enumeration (extractor.py lines 33-35). -/
inductive ExtractionMethod where
  | DIGITAL
  | OCR
deriving DecidableEq, Repr

/-- `FirstPageResult` dataclass (extractor.py lines 38-48). -/
structure FirstPageResult where
  filename : String
  first_page_text : String
  document_type : DocumentType
  is_scanned : Bool
  mime_type : String
  file_size_bytes : Nat
  success : Bool
  error : Option String := none
deriving DecidableEq, Repr

/-- `ExtractionResult` dataclass (extractor.py lines 51-62). -/
structure ExtractionResult where
  filename : String
  document_type : DocumentType
  text : String
  page_count : Option Nat
  extraction_method : ExtractionMethod
  file_size_bytes : Nat
  mime_type : String
  success : Bool
  error : Option String := none
deriving DecidableEq, Repr

/-! ### extractor.py — FILENAME_PATTERNS as executable matchers

The patterns (extractor.py lines 95-115) use only literal words, the
character class `[\s_-]`, word boundaries `\b` and the alternation
`(ar|fr)`; each is compiled here by hand into a decidable search.
`searchAux` tries every start position of the subject, passing the
predicate the preceding character (needed for `\b`). -/

/-- The regex character class `[\s_-]`. -/
def isSepClass (c : Char) : Bool :=
  isPySpace c || c = '_' || c = '-'

/-- Try a position predicate at every suffix of the subject; `prev` is the
character immediately before the current position (`none` at the start),
mirroring how `re.search` scans. -/
def searchAux (p : Option Char → List Char → Bool) : Option Char → List Char → Bool
  | prev, [] => p prev []
  | prev, c :: cs => p prev (c :: cs) || searchAux p (some c) cs

/-- `\b` before a word that starts with a word character: start of string
or a preceding non-word character. -/
def boundaryBefore : Option Char → Bool
  | none => true
  | some c => !isWordChar c

/-- `\b` after a word that ends with a word character: end of string or a
following non-word character. -/
def boundaryAfterAt : List Char → Bool
  | [] => true
  | c :: _ => !isWordChar c

/-- `re.search(r'\bWORD\b', s)` for a literal `WORD` made of word
characters. -/
def reWordB (w : String) (s : String) : Bool :=
  searchAux
    (fun prev t =>
      boundaryBefore prev && w.data.isPrefixOf t && boundaryAfterAt (t.drop w.length))
    none s.data

/-- `re.search(r'\bavis[\s_-]', s)`. -/
def reAvisSep (s : String) : Bool :=
  searchAux
    (fun prev t =>
      boundaryBefore prev && "avis".data.isPrefixOf t &&
        (match t.drop 4 with
         | [] => false
         | c :: _ => isSepClass c))
    none s.data

/-- `re.search(r'[\s_-]avis\b', s)`. -/
def reSepAvis (s : String) : Bool :=
  searchAux
    (fun _ t =>
      match t with
      | [] => false
      | c :: rest =>
        isSepClass c && "avis".data.isPrefixOf rest && boundaryAfterAt (rest.drop 4))
    none s.data

/-- `re.search(r'avis[\s_-]*(ar|fr)', s)`.  Because `a` and `f` are not in
the class `[\s_-]`, the starred class must consume the whole separator run
before `ar`/`fr` can match, so dropping the maximal run is equivalent to
the regex engine's backtracking. -/
def reAvisArFr (s : String) : Bool :=
  searchAux
    (fun _ t =>
      "avis".data.isPrefixOf t &&
        (let rest := (t.drop 4).dropWhile isSepClass
         "ar".data.isPrefixOf rest || "fr".data.isPrefixOf rest))
    none s.data

/-- Any of `FILENAME_PATTERNS[AVIS]` matches (extractor.py lines 96-101). -/
def avisFilenameMatch (s : String) : Bool :=
  reWordB "avis" s || reAvisSep s || reSepAvis s || reAvisArFr s

/-- Any of `FILENAME_PATTERNS[RC]` matches (lines 102-106). -/
def rcFilenameMatch (s : String) : Bool :=
  reWordB "rc" s || reWordB "rcdp" s || reWordB "rcdg" s

/-- Any of `FILENAME_PATTERNS[CPS]` matches (lines 107-111). -/
def cpsFilenameMatch (s : String) : Bool :=
  reWordB "cps" s || reWordB "ccaf" s || reWordB "cctp" s

/-- `FILENAME_PATTERNS[ANNEXE]` matches (lines 112-114). -/
def annexeFilenameMatch (s : String) : Bool :=
  reWordB "annexe" s

/-- The AVIS-disambiguation marker `re.search(r'\b(rc|cps|ccaf|rcdp|rcdg)\b',
base_filename)` (extractor.py line 143); alternation of bounded literal
words is the union of the word searches. -/
def rcCpsMarker (s : String) : Bool :=
  reWordB "rc" s || reWordB "cps" s || reWordB "ccaf" s ||
    reWordB "rcdp" s || reWordB "rcdg" s

/-! ### extractor.py — CLASSIFICATION_KEYWORDS (lines 67-92) -/

def avisKeywords : List String :=
  ["avis de consultation", "avis d'appel d'offres", "avis d'appel",
   "avis appel offres", "avis ao", "avis"]

def rcKeywords : List String :=
  ["règlement de consultation", "reglement de consultation",
   "règlement de la consultation", "reglement de la consultation"]

def cpsKeywords : List String :=
  ["cahier des prescriptions spéciales", "cahier des prescriptions speciales",
   "cahier des clauses"]

def annexeKeywords : List String :=
  ["annexe", "additif", "avenant"]

/-- `any(keyword in text_lower for keyword in kws)` in loop order. -/
def containsAny (hay : String) (kws : List String) : Bool :=
  kws.any (fun k => strContains hay k)

/-! ### extractor.py — AI classification collaborator

`classify_document_with_ai` (lines 163-250) calls the DeepSeek chat API.
The call is modelled by an oracle giving the model's reply for a
(filename, excerpt) pair; `AiResponse.err` covers a missing API key and
every raised exception, both of which the source maps to `UNKNOWN`. -/

inductive AiResponse where
  | err
  | ok (content : String)
deriving DecidableEq, Repr

/-- External-model oracle: filename and text excerpt to the chat reply. -/
abbrev AiApi : Type := String → String → AiResponse

/-- The `type_map.get(result, DocumentType.UNKNOWN)` table (lines 237-244). -/
def typeMap (r : String) : DocumentType :=
  if r = "AVIS" then DocumentType.AVIS
  else if r = "RC" then DocumentType.RC
  else if r = "CPS" then DocumentType.CPS
  else if r = "ANNEXE" then DocumentType.ANNEXE
  else DocumentType.UNKNOWN

/-- `classify_document_with_ai` (extractor.py lines 163-250): cap the text
(first 500 words when scanned, first 2000 characters otherwise), query the
model, normalise the reply with `.strip().upper()`, map it through
`type_map`; any failure yields `UNKNOWN`. -/
def classify_document_with_ai (api : AiApi) (text : String) (filename : String)
    (is_scanned : Bool) : DocumentType :=
  let text_to_analyze :=
    if is_scanned then String.intercalate " " ((pySplitWs text).take 500)
    else pyTake text 2000
  match api filename text_to_analyze with
  | AiResponse.err => DocumentType.UNKNOWN
  | AiResponse.ok content => typeMap (pyUpper (pyStrip content))

/-- The bare file name: `filename_lower.split('/')[-1].split('\\')[-1]`
(extractor.py line 133). -/
def baseFilename (filename_lower : String) : String :=
  ((splitOnChar '\\' ((splitOnChar '/' filename_lower).getLastD "")).getLastD "")

/-- `classify_document` (extractor.py lines 118-160).

Priority 1 walks `[AVIS, RC, CPS, ANNEXE]`; within AVIS, a pattern match
with the `rc|cps|ccaf|rcdp|rcdg` marker present executes `continue`, and
since the marker test does not depend on the pattern, the whole AVIS group
is skipped exactly when the marker is present — giving the if-chain below.
Priority 2 is the keyword scan in the same role order; priority 3 the
optional AI fallback for non-trivial text. -/
def classify_document (api : AiApi) (text : String) (filename : String)
    (use_ai : Bool) (is_scanned : Bool) : DocumentType :=
  let text_lower := pyLower text
  let base_filename := baseFilename (pyLower filename)
  if avisFilenameMatch base_filename && !rcCpsMarker base_filename then
    DocumentType.AVIS
  else if rcFilenameMatch base_filename then DocumentType.RC
  else if cpsFilenameMatch base_filename then DocumentType.CPS
  else if annexeFilenameMatch base_filename then DocumentType.ANNEXE
  else if containsAny text_lower avisKeywords then DocumentType.AVIS
  else if containsAny text_lower rcKeywords then DocumentType.RC
  else if containsAny text_lower cpsKeywords then DocumentType.CPS
  else if containsAny text_lower annexeKeywords then DocumentType.ANNEXE
  else if use_ai && text ≠ "" && (pyStrip text).length > 20 then
    let ai_result := classify_document_with_ai api text filename is_scanned
    if ai_result ≠ DocumentType.UNKNOWN then ai_result else DocumentType.UNKNOWN
  else DocumentType.UNKNOWN

/-! ### extractor.py — library behaviour of one archive entry

A `FileContent` bundles the outcomes of every external-library call that
the extraction routines can make on one entry's byte stream.  Each field
corresponds to one collaborator; the repository's code around those calls
is translated literally below. -/

/-- Outcome of the first-page recognition in `_ocr_first_page_pdf`
(extractor.py lines 278-311): `importErr` is the `ImportError` branch
(returns the literal `"[OCR REQUIRED]"`), `failed` any other exception
(returns `""`), `ok s` a completed call producing text `s` (the source
returns `""` when the document has no pages or recognition found no
lines, which is `ok ""`). -/
inductive OcrFirst where
  | importErr
  | failed
  | ok (text : String)
deriving DecidableEq, Repr

/-- Outcome of the full recognition in `_extract_full_pdf_ocr`
(extractor.py lines 614-649): `importErr` maps to the fixed sentinel,
`failed msg` to `"[OCR FAILED: " ++ msg ++ "]"`, and `ok pages` gives per
page either `some text` (recognition produced lines) or `none` (page
skipped). -/
inductive OcrFull where
  | importErr
  | failed (msg : String)
  | ok (pages : List (Option String))
deriving DecidableEq, Repr

/-- External-library behaviour of one entry's byte stream. -/
structure FileContent where
  /-- `file_bytes.seek(0, 2); file_bytes.tell()`: the byte length. -/
  size : Nat := 0
  /-- pypdf: parse error, or the per-page `page.extract_text() or ""`
  results (`error` also covers `extract_text` itself raising). -/
  pdfPages : Except String (List String) := Except.error "not a pdf"
  /-- paddleocr/fitz on the first page (see `OcrFirst`). -/
  ocrFirst : OcrFirst := OcrFirst.failed
  /-- paddleocr/fitz on every page (see `OcrFull`). -/
  ocrFull : OcrFull := OcrFull.failed "unavailable"
  /-- python-docx: parse error, or the paragraphs' text in order. -/
  docxParas : Except String (List String) := Except.error "not docx"
  /-- python-docx: table cells (tables, then rows, then cell text). -/
  docxTables : List (List (List String)) := []
  /-- antiword subprocess: `some stdout` when it exited 0 with non-blank
  output, `none` when missing, timed out, failed or printed nothing. -/
  antiword : Option String := none
  /-- `content.decode(enc, errors='ignore')` for encodings
  utf-8, latin-1, cp1252 in that order (decode with `errors='ignore'`
  never raises). -/
  decodings : List String := []
  /-- openpyxl: workbook parse failure, or the sheets as
  (name, rows of `str(cell)`-rendered cells, `none` for empty cells). -/
  xlsxSheets : Except Unit (List (String × List (List (Option String)))) := Except.error ()
  /-- pandas `read_excel` fallback: failure message, or
  (sheet name, `to_string()` rendering) pairs. -/
  pdRead : Except String (List (String × String)) := Except.error "unavailable"
  /-- `file_bytes.read(2000).decode('utf-8', errors='ignore')`. -/
  txtFirst2000 : String := ""
  /-- `file_bytes.read().decode('utf-8', errors='ignore')`. -/
  txtFull : String := ""
deriving Repr

/-! ### extractor.py — first-page extraction helpers -/

/-- `_is_pdf_scanned` (extractor.py lines 257-275): returns
`(is_scanned, first_page_text)`; a parse failure or an empty document is
scanned with empty text, otherwise scanned iff the stripped first-page
text has fewer than 100 characters. -/
def is_pdf_scanned (fc : FileContent) : Bool × String :=
  match fc.pdfPages with
  | Except.error _ => (true, "")
  | Except.ok [] => (true, "")
  | Except.ok (t :: _) => (decide ((pyStrip t).length < 100), t)

/-- `_ocr_first_page_pdf` (extractor.py lines 278-311). -/
def ocr_first_page_pdf (fc : FileContent) : String :=
  match fc.ocrFirst with
  | OcrFirst.importErr => "[OCR REQUIRED]"
  | OcrFirst.failed => ""
  | OcrFirst.ok s => s

/-- The paragraph loop of `_get_first_page_docx` (extractor.py lines
322-327): paragraphs are appended until the accumulated character count
exceeds 1000 (the crossing paragraph is included). -/
def docxFirstParas : Nat → List String → List String
  | _, [] => []
  | char_count, p :: ps =>
    if char_count + p.length > 1000 then [p]
    else p :: docxFirstParas (char_count + p.length) ps

/-- `_get_first_page_docx` (extractor.py lines 314-331): join the capped
paragraph list with newlines; any parse failure yields `""`. -/
def get_first_page_docx (fc : FileContent) : String :=
  match fc.docxParas with
  | Except.error _ => ""
  | Except.ok paras => String.intercalate "\n" (docxFirstParas 0 paras)

/-- Maximal character runs satisfying `p` (accumulator reversed), for the
`re.findall(r'[...]{4,}', decoded)` scrapes. -/
def runsOfAux (p : Char → Bool) (cur : List Char) : List Char → List (List Char)
  | [] => if cur.isEmpty then [] else [cur.reverse]
  | c :: cs =>
    if p c then runsOfAux p (c :: cur) cs
    else if cur.isEmpty then runsOfAux p [] cs
    else cur.reverse :: runsOfAux p [] cs

/-- `re.findall(r'[class]{4,}', s)`: the maximal runs of class characters
of length at least 4 (greedy repetition makes matches exactly these). -/
def findRuns (p : Char → Bool) (s : String) : List String :=
  ((runsOfAux p [] s.data).filter (fun r => r.length ≥ 4)).map String.mk

/-- The class `[a-zA-ZÀ-ÿ\s]` of the first-page `.doc` scrape
(extractor.py line 384). -/
def docScrapeClass1 (c : Char) : Bool :=
  (('a' ≤ c && c ≤ 'z') || ('A' ≤ c && c ≤ 'Z') ||
    (0xC0 ≤ c.val && c.val ≤ 0xFF) || isPySpace c)

/-- The class `[a-zA-ZÀ-ÿ0-9\s\.,;:\-\(\)]` of the full `.doc` scrape
(extractor.py line 442). -/
def docScrapeClass2 (c : Char) : Bool :=
  docScrapeClass1 c || c.isDigit || c = '.' || c = ',' || c = ';' ||
    c = ':' || c = '-' || c = '(' || c = ')'

/-- Method 2 of `_get_first_page_doc` (extractor.py lines 374-396): per
decoding, collect runs, join, collapse whitespace, strip; accept when
longer than 50 characters (capped at 1000), else try the next decoding. -/
def docScrapeFirst : List String → String
  | [] => ""
  | d :: ds =>
    let words := findRuns docScrapeClass1 d
    if words.isEmpty then docScrapeFirst ds
    else
      let text := pyStrip (collapseWs (String.intercalate " " words))
      if text.length > 50 then pyTake text 1000 else docScrapeFirst ds

/-- `_get_first_page_doc` (extractor.py lines 334-396): antiword first,
then the byte-level scrape, else `""`. -/
def get_first_page_doc (fc : FileContent) : String :=
  match fc.antiword with
  | some out => pyTake out 1000
  | none => docScrapeFirst fc.decodings

/-- Method 2 of `_extract_full_doc` (extractor.py lines 435-451): like the
first-page scrape but with the wider class, a 100-character acceptance
threshold and no cap; `none` when every decoding is rejected. -/
def docScrapeFull : List String → Option String
  | [] => none
  | d :: ds =>
    let words := findRuns docScrapeClass2 d
    if words.isEmpty then docScrapeFull ds
    else
      let text := pyStrip (collapseWs (String.intercalate " " words))
      if text.length > 100 then some text else docScrapeFull ds

/-- `_extract_full_doc` (extractor.py lines 399-453): antiword, then the
scrape, else the fixed failure sentinel; the page count is always `None`. -/
def extract_full_doc (fc : FileContent) : String × Option Nat :=
  match fc.antiword with
  | some out => (out, none)
  | none =>
    match docScrapeFull fc.decodings with
    | some text => (text, none)
    | none => ("[.DOC EXTRACTION FAILED - Install antiword for better support]", none)

/-- The row loop of `_get_first_page_xlsx` (extractor.py lines 469-475):
empty-cell values render as `""`, blank rows are skipped, and the loop
stops after appending the row that takes the count past 20. -/
def xlsxFirstRows : Nat → List (List (Option String)) → List String
  | _, [] => []
  | row_count, r :: rs =>
    let row_values := r.map (fun c => c.getD "")
    if row_values.any (fun v => v ≠ "") then
      let line := String.intercalate " | " row_values
      if row_count + 1 > 20 then [line]
      else line :: xlsxFirstRows (row_count + 1) rs
    else xlsxFirstRows row_count rs

/-- `_get_first_page_xlsx` (extractor.py lines 456-481): first sheet only;
a parse failure or an empty workbook yields `""`. -/
def get_first_page_xlsx (fc : FileContent) : String :=
  match fc.xlsxSheets with
  | Except.error _ => ""
  | Except.ok [] => ""
  | Except.ok ((_, rows) :: _) => String.intercalate "\n" (xlsxFirstRows 0 rows)

/-! ### extractor.py — extract_first_page -/

/-- The `mime_map.get(ext, 'application/octet-stream')` table
(extractor.py lines 515-522). -/
def mimeFromExt (ext : String) : String :=
  if ext = "pdf" then "application/pdf"
  else if ext = "docx" then
    "application/vnd.openxmlformats-officedocument.wordprocessingml.document"
  else if ext = "doc" then "application/msword"
  else if ext = "xlsx" then
    "application/vnd.openxmlformats-officedocument.spreadsheetml.sheet"
  else if ext = "xls" then "application/vnd.ms-excel"
  else "application/octet-stream"

/-- `filename.lower().split('.')[-1] if '.' in filename else ''`. -/
def extOf (filename : String) : String :=
  if strContains filename "." then (splitOnChar '.' (pyLower filename)).getLastD ""
  else ""

/-- `extract_first_page` (extractor.py lines 484-593).  Temporary/hidden
entries (bare name starting `~$` or `.`) are skipped up front with a
failure record; otherwise the format branch produces the first-page text
(for a scanned PDF whose structural text is empty, via first-page
recognition), and the text is classified with the AI fallback enabled by
`use_ai_classification`.  Every helper reached here handles its own
exceptions, so the trailing `except` branch of the source is dead and the
function is total. -/
def extract_first_page (api : AiApi) (filename : String) (fc : FileContent)
    (use_ai_classification : Bool) : FirstPageResult :=
  let base_name := (splitOnChar '/' filename).getLastD ""
  if pyStartsWith base_name "~$" || pyStartsWith base_name "." then
    { filename := filename, first_page_text := "",
      document_type := DocumentType.UNKNOWN, is_scanned := false,
      mime_type := "", file_size_bytes := 0, success := false,
      error := some "Temporary or hidden file - skipped" }
  else
    let file_size := fc.size
    let ext := extOf filename
    let mime_type := mimeFromExt ext
    if ext = "pdf" || mime_type = "application/pdf" then
      let scanRes := is_pdf_scanned fc
      let is_scanned := scanRes.1
      let first_page_text :=
        if is_scanned && scanRes.2 = "" then ocr_first_page_pdf fc else scanRes.2
      { filename := filename, first_page_text := first_page_text,
        document_type := classify_document api first_page_text filename
          use_ai_classification is_scanned,
        is_scanned := is_scanned, mime_type := mime_type,
        file_size_bytes := file_size, success := true }
    else if ext = "docx" || strContains mime_type "wordprocessingml" then
      let first_page_text := get_first_page_docx fc
      { filename := filename, first_page_text := first_page_text,
        document_type := classify_document api first_page_text filename
          use_ai_classification false,
        is_scanned := false, mime_type := mime_type,
        file_size_bytes := file_size, success := true }
    else if ext = "doc" then
      let first_page_text := get_first_page_doc fc
      { filename := filename, first_page_text := first_page_text,
        document_type := classify_document api first_page_text filename
          use_ai_classification false,
        is_scanned := false, mime_type := mime_type,
        file_size_bytes := file_size, success := true }
    else if ext = "xls" || ext = "xlsx" || strContains mime_type "excel" ||
        strContains mime_type "spreadsheet" then
      let first_page_text := get_first_page_xlsx fc
      { filename := filename, first_page_text := first_page_text,
        document_type := classify_document api first_page_text filename
          use_ai_classification false,
        is_scanned := false, mime_type := mime_type,
        file_size_bytes := file_size, success := true }
    else if ext = "txt" || mime_type = "text/plain" then
      let first_page_text := fc.txtFirst2000
      { filename := filename, first_page_text := first_page_text,
        document_type := classify_document api first_page_text filename
          use_ai_classification false,
        is_scanned := false, mime_type := mime_type,
        file_size_bytes := file_size, success := true }
    else
      { filename := filename, first_page_text := "",
        document_type := DocumentType.UNKNOWN, is_scanned := false,
        mime_type := mime_type, file_size_bytes := file_size,
        success := false, error := some ("Unsupported file type: " ++ ext) }

/-! ### extractor.py — full extraction -/

/-- A Python exception escaping a repository function. -/
inductive PyErr where
  | nameError (name : String)
deriving DecidableEq, Repr

/-- `detect_mime_type` is called by `extract_full_document` (extractor.py
line 710) but is neither defined nor imported anywhere in the repository's
sources, so evaluating the name raises `NameError: name 'detect_mime_type'
is not defined` on every call. -/
def detect_mime_type (_filename : String) : Except PyErr String :=
  Except.error (PyErr.nameError "detect_mime_type")

/-- `_extract_full_pdf_digital` (extractor.py lines 600-611): no exception
handling of its own, so a pypdf failure propagates to the caller's
`except` clause. -/
def extract_full_pdf_digital (fc : FileContent) : Except String (String × Nat) :=
  match fc.pdfPages with
  | Except.error e => Except.error e
  | Except.ok pages => Except.ok (String.intercalate "\n\n" pages, pages.length)

/-- `_extract_full_pdf_ocr` (extractor.py lines 614-649): recognition
failures degrade to sentinel strings with page count 0; a completed run
joins the recognised pages with `--- Page i ---` markers. -/
def extract_full_pdf_ocr (fc : FileContent) : String × Nat :=
  match fc.ocrFull with
  | OcrFull.importErr => ("[OCR REQUIRED - Dependencies not installed]", 0)
  | OcrFull.failed msg => ("[OCR FAILED: " ++ msg ++ "]", 0)
  | OcrFull.ok pages =>
    let entries := (pages.enum.filterMap
      (fun pr => pr.2.map
        (fun t => "--- Page " ++ toString (pr.1 + 1) ++ " ---\n" ++ t)))
    (String.intercalate "\n\n" entries, pages.length)

/-- `_extract_full_docx` (extractor.py lines 652-665): paragraphs then
table rows (cells joined with `" | "`); a parse failure propagates. -/
def extract_full_docx (fc : FileContent) : Except String (String × Option Nat) :=
  match fc.docxParas with
  | Except.error e => Except.error e
  | Except.ok paras =>
    let tableRows := fc.docxTables.flatMap
      (fun table => table.map (fun row => String.intercalate " | " row))
    Except.ok (String.intercalate "\n" (paras ++ tableRows), none)

/-- The sheet rendering of `_extract_full_xlsx` (extractor.py lines
676-683): a marker line per sheet, then one line per non-blank row. -/
def xlsxSheetLines (sheets : List (String × List (List (Option String)))) : List String :=
  sheets.flatMap (fun sh =>
    ("=== Sheet: " ++ sh.1 ++ " ===") ::
      sh.2.filterMap (fun r =>
        let row_values := r.map (fun c => c.getD "")
        if row_values.any (fun v => v ≠ "") then
          some (String.intercalate " | " row_values)
        else none))

/-- `_extract_full_xlsx` (extractor.py lines 668-698): openpyxl first; on
its failure the pandas fallback; on both failing, a sentinel string.
Never raises. -/
def extract_full_xlsx (fc : FileContent) : String × Option Nat :=
  match fc.xlsxSheets with
  | Except.ok sheets => (String.intercalate "\n" (xlsxSheetLines sheets), none)
  | Except.error _ =>
    match fc.pdRead with
    | Except.ok dfs =>
      (String.intercalate "\n"
        (dfs.flatMap (fun sh => ["=== Sheet: " ++ sh.1 ++ " ===", sh.2])), none)
    | Except.error e => ("[EXCEL EXTRACTION FAILED: " ++ e ++ "]", none)

/-- The failure record built by the `except` clause of
`extract_full_document` (extractor.py lines 766-778). -/
def fullFailureResult (filename : String) (file_size : Nat) (mime_type : String)
    (e : String) : ExtractionResult :=
  { filename := filename, document_type := DocumentType.UNKNOWN, text := "",
    page_count := none, extraction_method := ExtractionMethod.DIGITAL,
    file_size_bytes := file_size, mime_type := mime_type, success := false,
    error := some e }

/-- The success record of `extract_full_document` (extractor.py lines
755-764), re-classifying the extracted text with `use_ai=False`. -/
def fullSuccessResult (api : AiApi) (filename : String) (text : String)
    (page_count : Option Nat) (method : ExtractionMethod) (file_size : Nat)
    (mime_type : String) : ExtractionResult :=
  { filename := filename,
    document_type := classify_document api text filename false false,
    text := text, page_count := page_count, extraction_method := method,
    file_size_bytes := file_size, mime_type := mime_type, success := true }

/-- `extract_full_document` (extractor.py lines 701-778).  The call
`detect_mime_type(filename)` at line 710 sits before the `try:` block and
raises `NameError` (the helper does not exist in the repository), so the
whole function raises on every input; the remainder of the body is
translated literally but is unreachable. -/
def extract_full_document (api : AiApi) (filename : String) (fc : FileContent)
    (is_scanned : Bool) : Except PyErr ExtractionResult := do
  let file_size := fc.size
  let mime_type ← detect_mime_type filename
  let ext := extOf filename
  if ext = "pdf" || mime_type = "application/pdf" then
    if is_scanned then
      let r := extract_full_pdf_ocr fc
      pure (fullSuccessResult api filename r.1 (some r.2) ExtractionMethod.OCR
        file_size mime_type)
    else
      match extract_full_pdf_digital fc with
      | Except.error e => pure (fullFailureResult filename file_size mime_type e)
      | Except.ok r =>
        pure (fullSuccessResult api filename r.1 (some r.2)
          ExtractionMethod.DIGITAL file_size mime_type)
  else if ext = "docx" || strContains mime_type "wordprocessingml" then
    match extract_full_docx fc with
    | Except.error e => pure (fullFailureResult filename file_size mime_type e)
    | Except.ok r =>
      pure (fullSuccessResult api filename r.1 r.2 ExtractionMethod.DIGITAL
        file_size mime_type)
  else if ext = "doc" then
    let r := extract_full_doc fc
    pure (fullSuccessResult api filename r.1 r.2 ExtractionMethod.DIGITAL
      file_size mime_type)
  else if ext = "xls" || ext = "xlsx" || strContains mime_type "excel" ||
      strContains mime_type "spreadsheet" then
    let r := extract_full_xlsx fc
    pure (fullSuccessResult api filename r.1 r.2 ExtractionMethod.DIGITAL
      file_size mime_type)
  else if ext = "txt" || mime_type = "text/plain" then
    pure (fullSuccessResult api filename fc.txtFull none ExtractionMethod.DIGITAL
      file_size mime_type)
  else
    pure ({ filename := filename,
            document_type := DocumentType.UNKNOWN,
            text := "", page_count := none,
            extraction_method := ExtractionMethod.DIGITAL,
            file_size_bytes := file_size, mime_type := mime_type,
            success := false,
            error := some ("Unsupported file type: " ++ ext) } : ExtractionResult)

/-! ### extractor.py — the pipeline

An unpacked archive is the ordered mapping of entry name to byte-stream
behaviour produced by `DownloadedTender.get_files` (a Python dict, so the
names are unique and iteration follows insertion order); it is modelled as
an association list. -/

abbrev ZipFiles : Type := List (String × FileContent)

/-- Python `name in zip_files` and `zip_files[name]` on the dict. -/
def zipLookup (zip : ZipFiles) (name : String) : Option FileContent :=
  (List.find? (fun e => e.1 = name) zip).map Prod.snd

/-- `classify_all_documents` (extractor.py lines 785-801): entries whose
full name starts with `.` or `__` are silently skipped; every other entry
gets a first-page scan (AI classification enabled, the call site uses the
default `use_ai_classification=True`). -/
def classify_all_documents (api : AiApi) (zip : ZipFiles) : List FirstPageResult :=
  (zip.filter (fun e => !(pyStartsWith e.1 "." || pyStartsWith e.1 "__"))).map
    (fun e => extract_first_page api e.1 e.2 true)

/-- `find_avis_document` (extractor.py lines 804-815): the first
classification that succeeded with type AVIS, if any. -/
def find_avis_document (classifications : List FirstPageResult) :
    Option FirstPageResult :=
  classifications.find?
    (fun r => r.success && decide (r.document_type = DocumentType.AVIS))

/-- `extract_avis_only` (extractor.py lines 818-833), instrumented: the
second component lists the file names passed to `extract_full_document`
(the entries carried to full extraction). -/
def extract_avis_only (api : AiApi) (zip : ZipFiles) (avis_info : FirstPageResult) :
    Except PyErr (Option ExtractionResult) × List String :=
  match zipLookup zip avis_info.filename with
  | none => (Except.ok none, [])
  | some file_bytes =>
    ((extract_full_document api avis_info.filename file_bytes
        avis_info.is_scanned).map some,
      [avis_info.filename])

/-- `process_tender_zip` (extractor.py lines 836-873), instrumented like
`extract_avis_only`.  After a successful full extraction the
`first_page_text` of every classification is cleared; the no-AVIS branch
returns the classifications unchanged, and an exception from the
extraction step propagates (there is no handler in the source). -/
def process_tender_zip (api : AiApi) (zip : ZipFiles) :
    Except PyErr (Option ExtractionResult × List FirstPageResult) × List String :=
  let classifications := classify_all_documents api zip
  match find_avis_document classifications with
  | none => (Except.ok (none, classifications), [])
  | some avis_info =>
    let step := extract_avis_only api zip avis_info
    match step.1 with
    | Except.error e => (Except.error e, step.2)
    | Except.ok avis_extraction =>
      (Except.ok (avis_extraction,
        classifications.map (fun c => { c with first_page_text := "" })), step.2)

/-! ### scraper.py — progress tracking and downloads

Timestamps come from the wall clock and are not part of any claim; a log
entry is modelled as its (level, message) pair. -/

/-- `ScraperProgress` dataclass (scraper.py lines 18-37). -/
structure ScraperProgress where
  phase : String := "Initializing"
  total : Nat := 0
  downloaded : Nat := 0
  failed : Nat := 0
  elapsed_seconds : Nat := 0
  logs : List (String × String) := []
  is_running : Bool := false
deriving DecidableEq, Repr

/-- `ScraperProgress.log` (scraper.py lines 29-37): append one entry. -/
def plog (p : ScraperProgress) (level message : String) : ScraperProgress :=
  { p with logs := p.logs ++ [(level, message)] }

/-- `DownloadedTender` dataclass (scraper.py lines 40-49); the ZIP bytes
are a byte list, `none` when the download failed. -/
structure DownloadedTender where
  index : Nat
  url : String
  success : Bool
  error : String := ""
  zip_bytes : Option (List Nat) := none
  suggested_filename : String := ""
deriving DecidableEq, Repr

/-- Python `files[name] = value` on the dict built by `get_files`: a new
key is appended, an existing key keeps its position and gets the new
value. -/
def dictInsert (files : List (String × List Nat)) (name : String)
    (value : List Nat) : List (String × List Nat) :=
  if (files.find? (fun e => e.1 = name)).isSome then
    files.map (fun e => if e.1 = name then (name, value) else e)
  else files ++ [(name, value)]

/-- The member loop of `DownloadedTender.get_files` (scraper.py lines
59-63): walk `namelist()` in order, skip directory entries (names ending
`/`), store each member's bytes in the dict.  A raising `zf.read(name)`
escapes the loop to the `except` clause (scraper.py lines 64-65), which
logs and falls through to `return files` — so the members already stored
are returned and the rest of the name list is abandoned. -/
def get_files_loop (readEntry : String → Except String (List Nat))
    (files : List (String × List Nat)) : List String → List (String × List Nat)
  | [] => files
  | name :: rest =>
    if pyEndsWith name "/" then get_files_loop readEntry files rest
    else
      match readEntry name with
      | Except.error _ => files
      | Except.ok value => get_files_loop readEntry (dictInsert files name value) rest

/-- `DownloadedTender.get_files` (scraper.py lines 51-67).  The zipfile
library on a fixed byte string is deterministic; its behaviour is split
into the two call sites the source has: `namelist` (the `ZipFile`
constructor plus `namelist()` — an error is the constructor raising on a
corrupt archive, caught with `files` still empty) and `readEntry`
(`zf.read(name)` — an error is a corrupt member raising mid-loop, caught
with the earlier members already stored).  `if not self.zip_bytes` is true
for both `None` and empty bytes. -/
def get_files (namelist : List Nat → Except String (List String))
    (readEntry : List Nat → String → Except String (List Nat))
    (zip_bytes : Option (List Nat)) : List (String × List Nat) :=
  match zip_bytes with
  | none => []
  | some bs =>
    if bs.isEmpty then []
    else
      match namelist bs with
      | Except.error _ => []
      | Except.ok names => get_files_loop (readEntry bs) [] names

/-- Outcome of one retrieval's external protocol (navigation, form, file
download) in `download_single_tender`: success with the captured bytes and
the suggested file name, a playwright timeout, or another exception (with
its type name and message). -/
inductive DlOutcome where
  | success (zipBytes : Option (List Nat)) (suggested : String)
  | timeout (msg : String)
  | failure (excName msg : String)
deriving DecidableEq, Repr

/-- One observable effect of `download_single_tender` on the shared
state: a counter update (`downloaded`/`failed` incremented), a log append,
or an invocation of the `on_progress` observer — each carrying the
progress snapshot right after it. -/
inductive PEvent where
  | counterUpdate (p : ScraperProgress)
  | logAppend (p : ScraperProgress)
  | callbackEv (p : ScraperProgress)
deriving DecidableEq, Repr

def PEvent.isCounterUpdate : PEvent → Bool
  | PEvent.counterUpdate _ => true
  | _ => false

def PEvent.isCallback : PEvent → Bool
  | PEvent.callbackEv _ => true
  | _ => false

/-- `TenderScraper.download_single_tender` (scraper.py lines 186-301),
instrumented with the ordered list of effects on the shared progress.

`stop` is the value of `_stop_requested` observed after acquiring the
semaphore: when set, the retrieval is refused and the function returns a
failure record immediately — without touching the progress and without
invoking the observer.  Otherwise the retrieval protocol runs (outcome
`outcome`); on success `downloaded` is incremented, on a timeout or any
other exception `failed` is incremented, and in each case one log entry is
appended and `_update_progress` then invokes the observer with the
updated snapshot. -/
def download_single_tender (stop : Bool) (outcome : DlOutcome) (idx : Nat)
    (tender_url : String) (p : ScraperProgress) :
    ScraperProgress × DownloadedTender × List PEvent :=
  if stop then
    (p, { index := idx, url := tender_url, success := false,
          error := "Stopped by user" }, [])
  else
    match outcome with
    | DlOutcome.success zipBytes suggested =>
      let p1 := { p with downloaded := p.downloaded + 1 }
      let p2 := plog p1 "success"
        ("Downloaded: tender_" ++ toString idx ++ "_" ++ pyTake suggested 30)
      (p2,
        { index := idx, url := tender_url, success := true,
          zip_bytes := zipBytes, suggested_filename := suggested },
        [PEvent.counterUpdate p1, PEvent.logAppend p2, PEvent.callbackEv p2])
    | DlOutcome.timeout msg =>
      let p1 := { p with failed := p.failed + 1 }
      let p2 := plog p1 "error" ("Timeout on tender #" ++ toString idx)
      (p2,
        { index := idx, url := tender_url, success := false,
          error := "Timeout: " ++ pyTake msg 100 },
        [PEvent.counterUpdate p1, PEvent.logAppend p2, PEvent.callbackEv p2])
    | DlOutcome.failure excName msg =>
      let p1 := { p with failed := p.failed + 1 }
      let p2 := plog p1 "error"
        ("Failed tender #" ++ toString idx ++ ": " ++ excName)
      (p2,
        { index := idx, url := tender_url, success := false,
          error := excName ++ ": " ++ pyTake msg 100 },
        [PEvent.counterUpdate p1, PEvent.logAppend p2, PEvent.callbackEv p2])

/-! ### scraper.py — the run -/

/-- `format_date` inside `collect_tender_links` (scraper.py lines
116-118): `YYYY-MM-DD` to `DD/MM/YYYY` (the source indexes the split
unconditionally; inputs are well-formed dates). -/
def format_date (date_str : String) : String :=
  let parts := splitOnChar '-' date_str
  (parts.getD 2 "") ++ "/" ++ (parts.getD 1 "") ++ "/" ++ (parts.getD 0 "")

/-- The separator line `"=" * 50`. -/
def sepLine : String := String.mk (List.replicate 50 '=')

/-- The shared progress at the moment link enumeration has completed and
`self.progress.total` has been set (`TenderScraper.run`, scraper.py lines
318-366): a fresh `ScraperProgress(is_running=True)`, the run header logs,
the browser/collect phases (`collect_tender_links` logs the date range,
the category line and the found count), then `total := links.length` and
the download phase header.  `links` is the harvested, prefix-filtered,
de-duplicated locator list. -/
def runAfterEnum (start_date end_date : String) (links : List String)
    (max_concurrent : Nat) : ScraperProgress :=
  let p0 : ScraperProgress := { is_running := true }
  let p1 := plog (plog (plog (plog p0 "info" sepLine) "info" "Starting scraper")
    "info" ("Date range: " ++ start_date ++ " → " ++ end_date)) "info" sepLine
  let p2 := { p1 with phase := "Launching browser" }
  let p3 := plog p2 "success" "Browser ready (headless)"
  let p4 := { p3 with phase := "Collecting tender links" }
  let p5 := plog (plog p4 "info"
      ("Date de mise en ligne: " ++ format_date start_date ++ " → " ++
        format_date end_date))
    "info" "Category: Fournitures (2)"
  let p6 := plog p5 "success"
    ("Found " ++ toString links.length ++ " tender links")
  let p7 := { p6 with total := links.length }
  if links.isEmpty then plog p7 "warning" "No tenders found"
  else
    plog { p7 with
            phase := "Downloading " ++ toString links.length ++ " tenders" }
      "info" ("Using " ++ toString max_concurrent ++ " concurrent workers")

/-- One completed retrieval as seen by the shared progress: the stop-flag
value it observed, its protocol outcome, and its (index, url). -/
abbrev TaskRun : Type := Bool × DlOutcome × Nat × String

def applyTask (p : ScraperProgress) (t : TaskRun) : ScraperProgress :=
  (download_single_tender t.1 t.2.1 t.2.2.1 t.2.2.2 p).1

/-- The successive states of the shared progress during the download
phase of `TenderScraper.run`: the state after enumeration, then the state
after each retrieval completes (retrievals are concurrent under the
semaphore, but each one's update is a single atomic increment applied in
completion order, so the states form this fold). -/
def runTrace (start_date end_date : String) (links : List String)
    (max_concurrent : Nat) (tasks : List TaskRun) : List ScraperProgress :=
  (tasks.scanl applyTask (runAfterEnum start_date end_date links max_concurrent))

/-- The finalisation of `TenderScraper.run` (scraper.py lines 388-403):
elapsed time, phase `Completed`, `is_running := False` and the summary
logs.  The counters and total are not modified. -/
def runFinalize (elapsed : Nat) (results : List DownloadedTender)
    (nLinks : Nat) (p : ScraperProgress) : ScraperProgress :=
  let success_count := (results.filter (fun r => r.success)).length
  let fail_count := (results.filter (fun r => !r.success)).length
  let q := { p with elapsed_seconds := elapsed,
                    phase := "Completed",
                    is_running := false }
  plog (plog (plog (plog q "info" sepLine)
      "success" ("Downloaded: " ++ toString success_count ++ "/" ++ toString nLinks))
      (if fail_count ≠ 0 then "error" else "success")
      ("Failed: " ++ toString fail_count))
    "info" ("Time: " ++ toString elapsed ++ "s")

/-! ### Concrete inputs used by witnesses and counterexamples -/

/-- AI collaborator that always fails (no key, network error, …). -/
def apiErr : AiApi := fun _ _ => AiResponse.err

/-- AI collaborator whose model always answers `RC`. -/
def apiRC : AiApi := fun _ _ => AiResponse.ok "RC"

/-- A plain-text entry whose decoded content is `s`. -/
def txtFile (s : String) : FileContent :=
  { size := s.length, txtFirst2000 := pyTake s 2000, txtFull := s }

/-- A digital PDF whose first page extracts to two spaces. -/
def pdfSparse : FileContent := { size := 10, pdfPages := Except.ok ["  "] }

/-- A digital PDF whose first page extracts to 500 letters. -/
def pdfDense : FileContent :=
  { size := 9000, pdfPages := Except.ok [String.mk (List.replicate 500 'a')] }

/-- A PDF with zero pages. -/
def pdfEmptyDoc : FileContent := { size := 10, pdfPages := Except.ok [] }

/-- A PDF whose parse raises. -/
def pdfCorrupt : FileContent := { size := 10, pdfPages := Except.error "EOF marker not found" }

/-- A scanned PDF (empty structural text) whose full recognition would
find the engine unavailable. -/
def fcScanPdf : FileContent :=
  { size := 5, pdfPages := Except.ok [""], ocrFull := OcrFull.importErr }

/-- Archive with a single RULES text entry and no notice. -/
def zipNoAvis : ZipFiles := [("rc.txt", txtFile "hello world content here")]

/-- Archive with a SPECIFICATIONS entry followed by a notice entry. -/
def zipWithAvis : ZipFiles :=
  [("cps_doc.txt", txtFile "spec"),
   ("avis.txt", txtFile "avis de consultation du marche")]

/-! ### Helper lemmas -/

theorem extract_first_page_filename (api : AiApi) (n : String) (fc : FileContent)
    (u : Bool) : (extract_first_page api n fc u).filename = n := by
  simp only [extract_first_page]
  repeat' split
  all_goals rfl

theorem classify_all_mem {api : AiApi} {zip : ZipFiles} {c : FirstPageResult}
    (h : c ∈ classify_all_documents api zip) :
    ∃ e, e ∈ zip ∧ (pyStartsWith e.1 "." || pyStartsWith e.1 "__") = false ∧
      c = extract_first_page api e.1 e.2 true := by
  unfold classify_all_documents at h
  rcases List.mem_map.mp h with ⟨e, he, hc⟩
  rcases List.mem_filter.mp he with ⟨hez, hep⟩
  exact ⟨e, hez, by simpa using hep, hc.symm⟩

theorem zipLookup_isSome {zip : ZipFiles} {name : String}
    (h : ∃ e, e ∈ zip ∧ e.1 = name) : ∃ fc, zipLookup zip name = some fc := by
  rcases h with ⟨e, he, hn⟩
  unfold zipLookup
  have : (List.find? (fun q => decide (q.1 = name)) zip).isSome := by
    rw [List.find?_isSome]
    exact ⟨e, he, by simp [hn]⟩
  rcases Option.isSome_iff_exists.mp this with ⟨q, hq⟩
  exact ⟨q.2, by rw [hq]; rfl⟩

theorem marker_implies_rc_or_cps {s : String} (h : rcCpsMarker s = true) :
    rcFilenameMatch s = true ∨ cpsFilenameMatch s = true := by
  simp only [rcCpsMarker, Bool.or_eq_true] at h
  simp only [rcFilenameMatch, cpsFilenameMatch, Bool.or_eq_true]
  tauto

/-- The skip branch of `extract_first_page` (extractor.py lines 494-506). -/
theorem extract_first_page_skip (api : AiApi) (filename : String)
    (fc : FileContent) (u : Bool)
    (h : (pyStartsWith ((splitOnChar '/' filename).getLastD "") "~$" ||
      pyStartsWith ((splitOnChar '/' filename).getLastD "") ".") = true) :
    extract_first_page api filename fc u =
      { filename := filename, first_page_text := "",
        document_type := DocumentType.UNKNOWN, is_scanned := false,
        mime_type := "", file_size_bytes := 0, success := false,
        error := some "Temporary or hidden file - skipped" } := by
  simp only [extract_first_page]
  rw [if_pos h]

theorem applyTask_total (p : ScraperProgress) (t : TaskRun) :
    (applyTask p t).total = p.total := by
  rcases t with ⟨stop, outcome, idx, url⟩
  unfold applyTask download_single_tender
  cases stop <;> cases outcome <;> simp [plog]

theorem applyTask_counts (p : ScraperProgress) (t : TaskRun) :
    (applyTask p t).downloaded + (applyTask p t).failed ≤
      p.downloaded + p.failed + 1 := by
  rcases t with ⟨stop, outcome, idx, url⟩
  unfold applyTask download_single_tender
  cases stop <;> cases outcome <;> simp [plog] <;> omega

theorem scanl_applyTask_inv (n : Nat) :
    ∀ (tasks : List TaskRun) (p : ScraperProgress),
      p.total = n → p.downloaded + p.failed + tasks.length ≤ n →
      ∀ q ∈ tasks.scanl applyTask p, q.total = n ∧ q.downloaded + q.failed ≤ n
  | [], p, ht, hc, q, hq => by
    simp only [List.scanl, List.mem_singleton] at hq
    subst hq
    exact ⟨ht, by simpa using hc⟩
  | t :: ts, p, ht, hc, q, hq => by
    rw [List.scanl_cons] at hq
    rcases List.mem_cons.mp hq with h | h
    · subst h
      refine ⟨ht, ?_⟩
      simp only [List.length_cons] at hc
      omega
    · refine scanl_applyTask_inv n ts (applyTask p t) ?_ ?_ q h
      · rw [applyTask_total]; exact ht
      · have hstep := applyTask_counts p t
        simp only [List.length_cons] at hc
        omega

theorem runAfterEnum_fields (sd ed : String) (links : List String) (mc : Nat) :
    (runAfterEnum sd ed links mc).total = links.length ∧
    (runAfterEnum sd ed links mc).downloaded = 0 ∧
    (runAfterEnum sd ed links mc).failed = 0 := by
  unfold runAfterEnum
  by_cases h : links.isEmpty <;> simp [h, plog]

theorem runFinalize_fields (e : Nat) (res : List DownloadedTender) (n : Nat)
    (p : ScraperProgress) :
    (runFinalize e res n p).total = p.total ∧
    (runFinalize e res n p).downloaded = p.downloaded ∧
    (runFinalize e res n p).failed = p.failed := by
  unfold runFinalize
  simp [plog]

theorem dictInsert_no_dirs {files : List (String × List Nat)} {name : String}
    {value : List Nat} (hacc : ∀ e ∈ files, pyEndsWith e.1 "/" = false)
    (hname : pyEndsWith name "/" = false) :
    ∀ e ∈ dictInsert files name value, pyEndsWith e.1 "/" = false := by
  intro e he
  unfold dictInsert at he
  split at he
  · rcases List.mem_map.mp he with ⟨a, ha, hae⟩
    subst hae
    split
    · exact hname
    · exact hacc a ha
  · rcases List.mem_append.mp he with h | h
    · exact hacc e h
    · rw [List.mem_singleton.mp h]
      exact hname

theorem get_files_loop_no_dirs (readEntry : String → Except String (List Nat)) :
    ∀ (names : List String) (files : List (String × List Nat)),
      (∀ e ∈ files, pyEndsWith e.1 "/" = false) →
      ∀ e ∈ get_files_loop readEntry files names, pyEndsWith e.1 "/" = false
  | [], files, hacc, e, he => hacc e he
  | name :: rest, files, hacc, e, he => by
    unfold get_files_loop at he
    by_cases hd : pyEndsWith name "/" = true
    · rw [if_pos hd] at he
      exact get_files_loop_no_dirs readEntry rest files hacc e he
    · rw [if_neg hd] at he
      rcases hr : readEntry name with err | value
      · rw [hr] at he
        exact hacc e he
      · rw [hr] at he
        refine get_files_loop_no_dirs readEntry rest _ ?_ e he
        exact dictInsert_no_dirs hacc (Bool.not_eq_true _ ▸ hd)

theorem get_files_loop_stops_at_error
    (readEntry : String → Except String (List Nat)) (name err : String)
    (post : List String) (hdir : pyEndsWith name "/" = false)
    (herr : readEntry name = Except.error err) :
    ∀ (pre : List String) (files : List (String × List Nat)),
      (∀ n ∈ pre, pyEndsWith n "/" = false → ∃ b, readEntry n = Except.ok b) →
      get_files_loop readEntry files (pre ++ name :: post) =
        get_files_loop readEntry files pre
  | [], files, _ => by
    show get_files_loop readEntry files (name :: post) =
      get_files_loop readEntry files []
    unfold get_files_loop
    rw [if_neg (by simp [hdir]), herr]
  | n :: pre, files, hpre => by
    show get_files_loop readEntry files (n :: (pre ++ name :: post)) =
      get_files_loop readEntry files (n :: pre)
    unfold get_files_loop
    by_cases hd : pyEndsWith n "/" = true
    · rw [if_pos hd, if_pos hd]
      exact get_files_loop_stops_at_error readEntry name err post hdir herr pre
        files (fun m hm => hpre m (List.mem_cons_of_mem n hm))
    · rw [if_neg hd, if_neg hd]
      rcases hpre n (List.mem_cons_self n pre) (Bool.not_eq_true _ ▸ hd) with ⟨b, hb⟩
      rw [hb]
      exact get_files_loop_stops_at_error readEntry name err post hdir herr pre
        (dictInsert files n b) (fun m hm => hpre m (List.mem_cons_of_mem n hm))

/-! ### Claim theorems -/

/-- C1: for every archive, at most one entry is carried to full
extraction: the instrumented pipeline records zero such entries when no
successful AVIS classification exists (`find_avis_document` returns `none`
exactly then), and exactly the file of the first (in scan order)
classification that succeeded with type AVIS otherwise —
`process_tender_zip` extracts only the entry returned by
`find_avis_document`, which is the first successful AVIS classification. -/
theorem C1_extracts_only_first_avis (api : AiApi) (zip : ZipFiles) :
    ((process_tender_zip api zip).2.length = 0 ∨
      (process_tender_zip api zip).2.length = 1) ∧
    (find_avis_document (classify_all_documents api zip) = none ↔
      ∀ c ∈ classify_all_documents api zip,
        ¬(c.success = true ∧ c.document_type = DocumentType.AVIS)) ∧
    (find_avis_document (classify_all_documents api zip) = none →
      (process_tender_zip api zip).2 = []) ∧
    (∀ info, find_avis_document (classify_all_documents api zip) = some info →
      (process_tender_zip api zip).2 = [info.filename] ∧
      info.success = true ∧ info.document_type = DocumentType.AVIS ∧
      ∃ as bs, classify_all_documents api zip = as ++ info :: bs ∧
        ∀ a ∈ as,
          ¬(a.success = true ∧ a.document_type = DocumentType.AVIS)) := by
  have main : ∀ info,
      find_avis_document (classify_all_documents api zip) = some info →
      (process_tender_zip api zip).2 = [info.filename] ∧
      info.success = true ∧ info.document_type = DocumentType.AVIS ∧
      ∃ as bs, classify_all_documents api zip = as ++ info :: bs ∧
        ∀ a ∈ as,
          ¬(a.success = true ∧ a.document_type = DocumentType.AVIS) := by
    intro info hf
    have hfind : (classify_all_documents api zip).find?
        (fun r => r.success && decide (r.document_type = DocumentType.AVIS)) =
        some info := hf
    have hmem := List.mem_of_find?_eq_some hfind
    rcases classify_all_mem hmem with ⟨e, hez, _, hc⟩
    have hfn : info.filename = e.1 := by
      rw [hc]; exact extract_first_page_filename api e.1 e.2 true
    obtain ⟨fc, hlook⟩ := zipLookup_isSome ⟨e, hez, hfn.symm⟩
    have hstep : (extract_avis_only api zip info).2 = [info.filename] := by
      unfold extract_avis_only
      rw [hlook]
    have hattempts : (process_tender_zip api zip).2 = [info.filename] := by
      simp only [process_tender_zip]
      rw [hf]
      rcases hse : (extract_avis_only api zip info).1 with err | ok <;>
        simpa [hse] using hstep
    have hsplit := List.find?_eq_some.mp hfind
    rcases hsplit with ⟨hp, as, bs, hdecomp, hprev⟩
    have hp' : info.success = true ∧ info.document_type = DocumentType.AVIS := by
      simpa using hp
    refine ⟨hattempts, hp'.1, hp'.2, as, bs, hdecomp, ?_⟩
    intro a ha hcon
    have := hprev a ha
    simp [hcon.1, hcon.2] at this
  refine ⟨?_, ?_, ?_, main⟩
  · rcases hf : find_avis_document (classify_all_documents api zip) with _ | info
    · left
      simp only [process_tender_zip]
      rw [hf]
      rfl
    · right
      rw [(main info hf).1]
      rfl
  · unfold find_avis_document
    rw [List.find?_eq_none]
    constructor
    · intro h c hm hcon
      have := h c hm
      simp [hcon.1, hcon.2] at this
    · intro h c hm
      have := h c hm
      simp only [Bool.and_eq_true, decide_eq_true_eq, not_and] at this ⊢
      intro hs
      exact fun hd => this hs hd
  · intro hf
    simp only [process_tender_zip]
    rw [hf]

/-- C1 witness: an archive with a SPECIFICATIONS entry followed by a
notice entry carries exactly the notice entry to full extraction. -/
theorem C1_extracts_only_first_avis_witness :
    (process_tender_zip apiErr zipWithAvis).2 = ["avis.txt"] := by
  have h := (C1_extracts_only_first_avis apiErr zipWithAvis).2.2.2
    (extract_first_page apiErr "avis.txt" (txtFile "avis de consultation du marche")
      true) (by decide)
  simpa using h.1

/-- C2: the claim is violated at a concrete archive.  With a single
RULES-classified text entry and no notice, `process_tender_zip` takes the
early no-AVIS return and hands back the classification with its
`first_page_text` still holding the entry's content — the clearing loop
(extractor.py lines 869-871) sits after that return and never runs on this
path (and the AVIS path raises `NameError` before reaching it, see C6). -/
theorem C2_snippet_survives_no_avis_return :
    (process_tender_zip apiErr zipNoAvis).1 =
      Except.ok (none,
        [extract_first_page apiErr "rc.txt" (txtFile "hello world content here")
          true]) ∧
    (extract_first_page apiErr "rc.txt" (txtFile "hello world content here")
        true).first_page_text = "hello world content here" := by
  constructor
  · rfl
  · rfl

/-- C4: the classifier applies the filename pattern rules first, in the
priority order AVIS > RC > CPS > ANNEXE, regardless of the early text, the
AI setting or the AI collaborator; an AVIS filename match is rejected when
the `rc|cps|ccaf|rcdp|rcdg` whole-word marker is present (the result is
then never AVIS); and the claim's scenario: `"Avis_AO_2024.pdf"` with
empty or sparse early text classifies as AVIS. -/
theorem C4_filename_rules_first (api : AiApi) (text filename : String)
    (use_ai is_scanned : Bool) :
    (avisFilenameMatch (baseFilename (pyLower filename)) = true →
      rcCpsMarker (baseFilename (pyLower filename)) = false →
      classify_document api text filename use_ai is_scanned =
        DocumentType.AVIS) ∧
    (rcCpsMarker (baseFilename (pyLower filename)) = true →
      classify_document api text filename use_ai is_scanned ≠
        DocumentType.AVIS) ∧
    ((avisFilenameMatch (baseFilename (pyLower filename)) = false ∨
        rcCpsMarker (baseFilename (pyLower filename)) = true) →
      rcFilenameMatch (baseFilename (pyLower filename)) = true →
      classify_document api text filename use_ai is_scanned =
        DocumentType.RC) ∧
    ((avisFilenameMatch (baseFilename (pyLower filename)) = false ∨
        rcCpsMarker (baseFilename (pyLower filename)) = true) →
      rcFilenameMatch (baseFilename (pyLower filename)) = false →
      cpsFilenameMatch (baseFilename (pyLower filename)) = true →
      classify_document api text filename use_ai is_scanned =
        DocumentType.CPS) ∧
    ((avisFilenameMatch (baseFilename (pyLower filename)) = false ∨
        rcCpsMarker (baseFilename (pyLower filename)) = true) →
      rcFilenameMatch (baseFilename (pyLower filename)) = false →
      cpsFilenameMatch (baseFilename (pyLower filename)) = false →
      annexeFilenameMatch (baseFilename (pyLower filename)) = true →
      classify_document api text filename use_ai is_scanned =
        DocumentType.ANNEXE) ∧
    classify_document apiErr "" "Avis_AO_2024.pdf" true false =
      DocumentType.AVIS ∧
    classify_document apiErr "  " "Avis_AO_2024.pdf" true false =
      DocumentType.AVIS := by
  refine ⟨?_, ?_, ?_, ?_, ?_, by decide, by decide⟩
  · intro h1 h2
    simp [classify_document, h1, h2]
  · intro hm
    cases hrc : rcFilenameMatch (baseFilename (pyLower filename)) with
    | true => simp [classify_document, hm, hrc]
    | false =>
      have hcps : cpsFilenameMatch (baseFilename (pyLower filename)) = true := by
        rcases marker_implies_rc_or_cps hm with h | h
        · rw [hrc] at h; cases h
        · exact h
      simp [classify_document, hm, hrc, hcps]
  · intro hnot hrc
    have hc1 : (avisFilenameMatch (baseFilename (pyLower filename)) &&
        !rcCpsMarker (baseFilename (pyLower filename))) = false := by
      rcases hnot with h | h <;> simp [h]
    simp [classify_document, hc1, hrc]
  · intro hnot hrc hcps
    have hc1 : (avisFilenameMatch (baseFilename (pyLower filename)) &&
        !rcCpsMarker (baseFilename (pyLower filename))) = false := by
      rcases hnot with h | h <;> simp [h]
    simp [classify_document, hc1, hrc, hcps]
  · intro hnot hrc hcps han
    have hc1 : (avisFilenameMatch (baseFilename (pyLower filename)) &&
        !rcCpsMarker (baseFilename (pyLower filename))) = false := by
      rcases hnot with h | h <;> simp [h]
    simp [classify_document, hc1, hrc, hcps, han]

/-- C4 witness: the AVIS filename rule fires before any content rule even
with keyword-bearing early text, and the marker rejects an AVIS match. -/
theorem C4_filename_rules_first_witness :
    classify_document apiErr "reglement de consultation" "Avis AO.pdf" true
        false = DocumentType.AVIS ∧
    classify_document apiErr "" "avis rc.pdf" true false ≠ DocumentType.AVIS :=
  ⟨(C4_filename_rules_first apiErr "reglement de consultation" "Avis AO.pdf"
      true false).1 (by decide) (by decide),
   (C4_filename_rules_first apiErr "" "avis rc.pdf" true false).2.1 (by decide)⟩

/-- C7: in every run, at every point once link enumeration has completed —
through every retrieval completion and the finalisation — the shared
progress satisfies `downloaded + failed ≤ total`, and `total` stays fixed
at the number of enumerated locators. -/
theorem C7_counters_bounded_total_fixed (sd ed : String) (links : List String)
    (mc : Nat) (tasks : List TaskRun) (h : tasks.length = links.length) :
    (∀ p ∈ runTrace sd ed links mc tasks,
      p.total = links.length ∧ p.downloaded + p.failed ≤ p.total) ∧
    (∀ elapsed results p, p ∈ runTrace sd ed links mc tasks →
      (runFinalize elapsed results links.length p).total = links.length ∧
      (runFinalize elapsed results links.length p).downloaded +
          (runFinalize elapsed results links.length p).failed ≤
        (runFinalize elapsed results links.length p).total) := by
  have base := runAfterEnum_fields sd ed links mc
  have hinv := scanl_applyTask_inv links.length tasks
    (runAfterEnum sd ed links mc) base.1
    (by rw [base.2.1, base.2.2, h]; omega)
  constructor
  · intro p hp
    have hi := hinv p hp
    exact ⟨hi.1, by rw [hi.1]; exact hi.2⟩
  · intro elapsed results p hp
    have hi := hinv p hp
    have hf := runFinalize_fields elapsed results links.length p
    refine ⟨by rw [hf.1, hi.1], ?_⟩
    rw [hf.1, hf.2.1, hf.2.2, hi.1]
    exact hi.2

/-- C7 witness: a two-link run, one retrieval succeeding and one refused
by the stop flag, at the state right after enumeration. -/
theorem C7_counters_bounded_total_fixed_witness :
    (runAfterEnum "2024-01-01" "2024-01-01" ["u1", "u2"] 3).total = 2 ∧
    (runAfterEnum "2024-01-01" "2024-01-01" ["u1", "u2"] 3).downloaded +
        (runAfterEnum "2024-01-01" "2024-01-01" ["u1", "u2"] 3).failed ≤
      (runAfterEnum "2024-01-01" "2024-01-01" ["u1", "u2"] 3).total := by
  have h := (C7_counters_bounded_total_fixed "2024-01-01" "2024-01-01"
      ["u1", "u2"] 3
      [(false, DlOutcome.success none "f.zip", 1, "u1"),
       (true, DlOutcome.timeout "t", 2, "u2")] (by decide)).1
    (runAfterEnum "2024-01-01" "2024-01-01" ["u1", "u2"] 3)
    (by simp [runTrace, List.scanl_cons])
  exact h

/-- C10: temporary and hidden entries never reach classification or
selection: an entry whose bare name starts `~$` or `.` is answered by
`extract_first_page` — without reading content — with a failure record
(empty text, UNKNOWN, size 0, the fixed skip detail); entries whose full
name starts `.` or `__` are silently omitted from
`classify_all_documents`; and consequently `find_avis_document` never
selects such an entry. -/
theorem C10_temp_hidden_skipped (api : AiApi) :
    (∀ filename fc u,
      (pyStartsWith ((splitOnChar '/' filename).getLastD "") "~$" ||
        pyStartsWith ((splitOnChar '/' filename).getLastD "") ".") = true →
      extract_first_page api filename fc u =
        { filename := filename, first_page_text := "",
          document_type := DocumentType.UNKNOWN, is_scanned := false,
          mime_type := "", file_size_bytes := 0, success := false,
          error := some "Temporary or hidden file - skipped" }) ∧
    (∀ zip : ZipFiles,
      (classify_all_documents api zip).map FirstPageResult.filename =
        (zip.filter
          (fun e => !(pyStartsWith e.1 "." || pyStartsWith e.1 "__"))).map
          Prod.fst) ∧
    (∀ zip c, find_avis_document (classify_all_documents api zip) = some c →
      pyStartsWith c.filename "." = false ∧
      pyStartsWith c.filename "__" = false ∧
      pyStartsWith ((splitOnChar '/' c.filename).getLastD "") "~$" = false ∧
      pyStartsWith ((splitOnChar '/' c.filename).getLastD "") "." = false) := by
  refine ⟨fun filename fc u h => extract_first_page_skip api filename fc u h,
    ?_, ?_⟩
  · intro zip
    unfold classify_all_documents
    rw [List.map_map]
    exact List.map_congr_left
      (fun e _ => extract_first_page_filename api e.1 e.2 true)
  · intro zip c hf
    have hfind : (classify_all_documents api zip).find?
        (fun r => r.success && decide (r.document_type = DocumentType.AVIS)) =
        some c := hf
    have hmem := List.mem_of_find?_eq_some hfind
    have hp := List.find?_some hfind
    have hsucc : c.success = true := by
      have hp' : c.success = true ∧ c.document_type = DocumentType.AVIS := by
        simpa using hp
      exact hp'.1
    rcases classify_all_mem hmem with ⟨e, hez, hep, hc⟩
    have hfn : c.filename = e.1 := by
      rw [hc]; exact extract_first_page_filename api e.1 e.2 true
    have hbase : (pyStartsWith ((splitOnChar '/' c.filename).getLastD "") "~$" ||
        pyStartsWith ((splitOnChar '/' c.filename).getLastD "") ".") = false := by
      cases hb : (pyStartsWith ((splitOnChar '/' c.filename).getLastD "") "~$" ||
          pyStartsWith ((splitOnChar '/' c.filename).getLastD "") ".") with
      | false => rfl
      | true =>
        have hskip := extract_first_page_skip api e.1 e.2 true (hfn ▸ hb)
        rw [hc, hskip] at hsucc
        cases hsucc
    rcases Bool.or_eq_false_iff.mp (hfn ▸ hep) with ⟨h1, h2⟩
    rcases Bool.or_eq_false_iff.mp hbase with ⟨h3, h4⟩
    exact ⟨h1, h2, h3, h4⟩

/-- C10 witness: a skipped temp-file record, and an archive with a hidden
entry whose classification list omits it. -/
theorem C10_temp_hidden_skipped_witness :
    extract_first_page apiErr "~$tmp.docx" (txtFile "x") true =
      { filename := "~$tmp.docx", first_page_text := "",
        document_type := DocumentType.UNKNOWN, is_scanned := false,
        mime_type := "", file_size_bytes := 0, success := false,
        error := some "Temporary or hidden file - skipped" } ∧
    (classify_all_documents apiErr
        [(".hidden", txtFile "x"), ("__MACOSX/a.pdf", txtFile "y"),
         ("rc.txt", txtFile "z")]).map FirstPageResult.filename = ["rc.txt"] := by
  constructor
  · exact (C10_temp_hidden_skipped apiErr).1 "~$tmp.docx" (txtFile "x") true
      (by decide)
  · have h := (C10_temp_hidden_skipped apiErr).2.1
      [(".hidden", txtFile "x"), ("__MACOSX/a.pdf", txtFile "y"),
       ("rc.txt", txtFile "z")]
    rw [h]
    rfl

/-- C3: the first-page scan classifies a PDF as scanned exactly when the
structurally extracted first-page text, stripped of whitespace, is shorter
than 100 characters; a parse failure or a zero-page document is classified
scanned (with empty text, for which the criterion also holds); and
`extract_first_page` records exactly this decision as `is_scanned` for
every non-skipped `.pdf` entry. -/
theorem C3_scanned_iff_sparse (fc : FileContent) :
    ((is_pdf_scanned fc).1 = true ↔ (pyStrip (is_pdf_scanned fc).2).length < 100) ∧
    (∀ e, fc.pdfPages = Except.error e → is_pdf_scanned fc = (true, "")) ∧
    (fc.pdfPages = Except.ok [] → is_pdf_scanned fc = (true, "")) ∧
    (∀ t rest, fc.pdfPages = Except.ok (t :: rest) →
      is_pdf_scanned fc = (decide ((pyStrip t).length < 100), t)) ∧
    (∀ (api : AiApi) (filename : String) (u : Bool), extOf filename = "pdf" →
      (pyStartsWith ((splitOnChar '/' filename).getLastD "") "~$" ||
        pyStartsWith ((splitOnChar '/' filename).getLastD "") ".") = false →
      (extract_first_page api filename fc u).is_scanned = (is_pdf_scanned fc).1) := by
  refine ⟨?_, ?_, ?_, ?_, ?_⟩
  rotate_right
  · intro api filename u h1 h2
    simp only [extract_first_page]
    rw [if_neg (by rw [h2]; simp), if_pos (by simp [h1])]
  all_goals unfold is_pdf_scanned
  · rcases h : fc.pdfPages with e | pages
    · simpa using by decide
    · cases pages with
      | nil => simpa using by decide
      | cons t rest => simp
  · intro e he; rw [he]
  · intro he; rw [he]
  · intro t rest he; rw [he]

/-- C3 witness: the claim's concrete scenarios.  A first page extracting
to two spaces is scanned; one extracting to 500 letters is not; a
zero-page document and a failing parse are scanned. -/
theorem C3_scanned_iff_sparse_witness :
    (is_pdf_scanned pdfSparse).1 = true ∧ (is_pdf_scanned pdfDense).1 = false ∧
    (is_pdf_scanned pdfEmptyDoc).1 = true ∧ (is_pdf_scanned pdfCorrupt).1 = true := by
  refine ⟨?_, ?_, ?_, ?_⟩
  · exact (C3_scanned_iff_sparse pdfSparse).1.mpr (by decide)
  · have h := (C3_scanned_iff_sparse pdfDense).1
    have hn : ¬(pyStrip (is_pdf_scanned pdfDense).2).length < 100 := by decide
    cases hb : (is_pdf_scanned pdfDense).1 with
    | false => rfl
    | true => exact absurd (h.mp hb) hn
  · exact congrArg Prod.fst ((C3_scanned_iff_sparse pdfEmptyDoc).2.2.1 rfl)
  · exact congrArg Prod.fst
      ((C3_scanned_iff_sparse pdfCorrupt).2.1 "EOF marker not found" rfl)

/-- C5 counterexample: with the AI fallback enabled and consulted (early
text of 25 letters, no keyword, no filename pattern), two calls with the
same early text and the same filename return different roles when the
external model's responses differ (first call: the model answers `RC`;
second call: the request fails), so `classify_document` is not a function
of (early text, filename) alone. -/
theorem C5_counterexample :
    classify_document apiRC "zzzzzzzzzzzzzzzzzzzzzzzzz" "doc1.pdf" true false ≠
      classify_document apiErr "zzzzzzzzzzzzzzzzzzzzzzzzz" "doc1.pdf" true false := by
  decide

/-- C5 (amended): `classify_document` is a pure function of (early text,
filename, use_ai, is_scanned) together with the external model's response;
it is a function of (early text, filename) alone whenever the AI fallback
is disabled, or the stripped early text is at most 20 characters (the
fallback is then not consulted). -/
theorem C5_pure_without_ai (api api2 : AiApi) (text filename : String)
    (s1 s2 : Bool) :
    (classify_document api text filename false s1 =
      classify_document api2 text filename false s2) ∧
    ((pyStrip text).length ≤ 20 →
      classify_document api text filename true s1 =
        classify_document api2 text filename true s2) := by
  constructor
  · simp [classify_document]
  · intro h
    have h20 : decide ((pyStrip text).length > 20) = false := by
      simp [Nat.not_lt.mpr h]
    simp [classify_document, h20]

/-- C5 witness for the amended claim at a concrete input. -/
theorem C5_pure_without_ai_witness :
    classify_document apiRC "hi" "doc1.pdf" true false =
      classify_document apiErr "hi" "doc1.pdf" true true :=
  (C5_pure_without_ai apiRC apiErr "hi" "doc1.pdf" false true).2 (by decide)

/-- C6: `extract_full_document` evaluates `detect_mime_type(filename)`
(extractor.py line 710) before its `try:` block, and that name is not
defined anywhere in the repository; every call therefore raises
`NameError` — including full extraction of a scanned PDF with the
recognition engine unavailable, where the claim expects a successful
result with the OCR method and a sentinel text. -/
theorem C6_name_error (api : AiApi) (filename : String) (fc : FileContent)
    (is_scanned : Bool) :
    extract_full_document api filename fc is_scanned =
      Except.error (PyErr.nameError "detect_mime_type") := rfl

/-- C8 counterexample: a retrieval refused because the stop flag was set
performs no progress update and invokes no callback, contradicting
"updated exactly once … including being refused because the cooperative
stop flag was set". -/
theorem C8_counterexample :
    ((download_single_tender true (DlOutcome.timeout "boom") 1 "u1"
        {}).2.2.filter PEvent.isCounterUpdate).length = 0 ∧
    ((download_single_tender true (DlOutcome.timeout "boom") 1 "u1"
        {}).2.2.filter PEvent.isCallback).length = 0 ∧
    ¬((download_single_tender true (DlOutcome.timeout "boom") 1 "u1"
        {}).2.2.filter PEvent.isCounterUpdate).length = 1 := by
  decide

/-- C8 (amended): every retrieval that begins (stop flag not set at its
start) updates the shared progress exactly once — one counter update,
raising `downloaded + failed` by one — and the observer callback is
invoked synchronously after that update with the updated snapshot (the
event trace is exactly update, log, callback-with-final-state); a
retrieval refused by the stop flag leaves the progress untouched and
invokes no callback. -/
theorem C8_update_once_then_callback (stop : Bool) (outcome : DlOutcome)
    (idx : Nat) (url : String) (p : ScraperProgress) :
    (stop = true →
      (download_single_tender stop outcome idx url p).2.2 = [] ∧
      (download_single_tender stop outcome idx url p).1 = p) ∧
    (stop = false →
      ∃ p1, (download_single_tender stop outcome idx url p).2.2 =
          [PEvent.counterUpdate p1,
           PEvent.logAppend (download_single_tender stop outcome idx url p).1,
           PEvent.callbackEv (download_single_tender stop outcome idx url p).1] ∧
        p1.downloaded + p1.failed = p.downloaded + p.failed + 1 ∧
        (download_single_tender stop outcome idx url p).1.downloaded +
            (download_single_tender stop outcome idx url p).1.failed =
          p.downloaded + p.failed + 1) := by
  constructor
  · intro h; subst h; exact ⟨rfl, rfl⟩
  · intro h; subst h
    cases outcome with
    | success zipBytes suggested =>
      refine ⟨{ p with downloaded := p.downloaded + 1 }, rfl, ?_, ?_⟩ <;>
        simp [download_single_tender, plog] <;> omega
    | timeout msg =>
      refine ⟨{ p with failed := p.failed + 1 }, rfl, ?_, ?_⟩ <;>
        simp [download_single_tender, plog] <;> omega
    | failure excName msg =>
      refine ⟨{ p with failed := p.failed + 1 }, rfl, ?_, ?_⟩ <;>
        simp [download_single_tender, plog] <;> omega

/-- C8 witness: the amended claim at a concrete beginning retrieval. -/
theorem C8_update_once_then_callback_witness :
    ∃ p1, (download_single_tender false (DlOutcome.timeout "boom") 1 "u1"
        {}).2.2 =
        [PEvent.counterUpdate p1,
         PEvent.logAppend (download_single_tender false (DlOutcome.timeout "boom")
            1 "u1" {}).1,
         PEvent.callbackEv (download_single_tender false (DlOutcome.timeout "boom")
            1 "u1" {}).1] ∧
      p1.downloaded + p1.failed = 1 ∧
      (download_single_tender false (DlOutcome.timeout "boom") 1 "u1"
          {}).1.downloaded +
        (download_single_tender false (DlOutcome.timeout "boom") 1 "u1"
          {}).1.failed = 1 :=
  (C8_update_once_then_callback false (DlOutcome.timeout "boom") 1 "u1" {}).2 rfl

/-- The `namelist` behaviour of an archive whose central directory is
intact but whose second member's data is corrupt. -/
def nlPartial : List Nat → Except String (List String) :=
  fun _ => Except.ok ["docs/", "a.txt", "bad.bin", "late.txt"]

/-- The matching `readEntry` behaviour: `a.txt` reads fine, any other
member read raises (`BadZipFile: Bad CRC-32`). -/
def rdPartial : List Nat → String → Except String (List Nat) :=
  fun _ name =>
    if name = "a.txt" then Except.ok [1, 2]
    else Except.error "Bad CRC-32 for file"

/-- C9 counterexample: an archive whose `ZipFile` open and `namelist()`
succeed but whose member `bad.bin` raises in `zf.read` mid-loop is a
corrupt archive for which `get_files` returns a partial, non-empty
mapping — the `except` clause sits outside the member loop and `files`
already holds the earlier entries — so "for every corrupt archive the
unpacker returns an empty mapping" is false as stated. -/
theorem C9_partial_mapping_counterexample :
    get_files nlPartial rdPartial (some [80, 75]) = [("a.txt", [1, 2])] ∧
    get_files nlPartial rdPartial (some [80, 75]) ≠ [] := by
  constructor
  · rfl
  · intro h
    cases h

/-- C9 (amended): unpacking excludes directory entries (names ending
`/`); no exception propagates past the caller, but the empty mapping is
guaranteed only when the archive fails to open (the `ZipFile` constructor
or `namelist()` raising) or the bytes are absent or empty — a member read
raising mid-loop instead returns the partial mapping of the members
already read, in order, abandoning the rest of the name list; and
unpacking the same bytes again — the library behaviour being a function
of the bytes — yields the identical mapping, hence identical entry names
and contents. -/
theorem C9_get_files_amended
    (namelist : List Nat → Except String (List String))
    (readEntry : List Nat → String → Except String (List Nat))
    (zip_bytes : Option (List Nat)) :
    (∀ e ∈ get_files namelist readEntry zip_bytes, pyEndsWith e.1 "/" = false) ∧
    (∀ bs err, zip_bytes = some bs → namelist bs = Except.error err →
      get_files namelist readEntry zip_bytes = []) ∧
    (zip_bytes = none → get_files namelist readEntry zip_bytes = []) ∧
    (∀ bs names pre name post, zip_bytes = some bs → bs.isEmpty = false →
      namelist bs = Except.ok names → names = pre ++ name :: post →
      pyEndsWith name "/" = false →
      (∃ err, readEntry bs name = Except.error err) →
      (∀ n ∈ pre, pyEndsWith n "/" = false → ∃ b, readEntry bs n = Except.ok b) →
      get_files namelist readEntry zip_bytes =
        get_files_loop (readEntry bs) [] pre) ∧
    (get_files namelist readEntry zip_bytes =
      get_files namelist readEntry zip_bytes) := by
  refine ⟨?_, ?_, ?_, ?_, rfl⟩
  · intro e he
    unfold get_files at he
    rcases zip_bytes with _ | bs
    · simp at he
    · by_cases hbs : bs.isEmpty
      · simp [hbs] at he
      · rcases hp : namelist bs with err | names
        · simp [hbs, hp] at he
        · simp only [hbs, hp, Bool.false_eq_true, if_false] at he
          exact get_files_loop_no_dirs (readEntry bs) names [] (by simp) e he
  · intro bs err hzb hp
    subst hzb
    unfold get_files
    by_cases hbs : bs.isEmpty <;> simp [hbs, hp]
  · intro h; subst h; rfl
  · intro bs names pre name post hzb hbs hnl hsplit hdir herr hpre
    subst hzb hsplit
    rcases herr with ⟨err, herr⟩
    have hg : get_files namelist readEntry (some bs) =
        get_files_loop (readEntry bs) [] (pre ++ name :: post) := by
      simp [get_files, hbs, hnl]
    rw [hg]
    exact get_files_loop_stops_at_error (readEntry bs) name err post
      hdir herr pre [] hpre

/-- C9 witness for the amended claim: the corrupt-member archive unpacks
to exactly the members read before the failure (the directory entry
skipped, the corrupt member and everything after it abandoned). -/
theorem C9_get_files_amended_witness :
    get_files nlPartial rdPartial (some [80, 75]) =
      get_files_loop (rdPartial [80, 75]) [] ["docs/", "a.txt"] := by
  have h := (C9_get_files_amended nlPartial rdPartial (some [80, 75])).2.2.2.1
    [80, 75] ["docs/", "a.txt", "bad.bin", "late.txt"] ["docs/", "a.txt"]
    "bad.bin" ["late.txt"] rfl rfl rfl rfl (by decide)
    ⟨"Bad CRC-32 for file", rfl⟩ ?_
  · exact h
  · intro n hn hd
    have hn' : n = "docs/" ∨ n = "a.txt" := by simpa using hn
    rcases hn' with rfl | rfl
    · exact absurd hd (by decide)
    · exact ⟨[1, 2], rfl⟩

end TenderSpec
